import Mathlib

/-!
Verification of the Quantum Lock protection subsystem
(`QUANTUM_LOCK_SYSTEM/CORE_LOCK`): a shallow embedding in Lean 4 of the
license checker (`license_check.py`), the Fernet cipher manager
(`fernet_manager.py`), the lock binding (`quantum_lock.py`) and the
anti-tamper monitor (`self_destruct.py`), together with theorems settling
the behavioural claims of the specification.

Modelling conventions:
- Python strings are `List Char` (`PyStr`); the Python string primitives
  used by the source (`split`, `join`, `lower`, `isdigit`, `int`, `strip`)
  are defined structurally below so that everything kernel-evaluates.
- `datetime` values are six-field records compared lexicographically, the
  order Python gives tuples of equal length; `datetime(year, 12, 31, 23,
  59, 59)` raises `ValueError` outside `1 ≤ year ≤ 9999`, modelled by an
  `Option` result.
- The external `cryptography.fernet` library is modelled symbolically
  (Dolev-Yao style): a token carries the identity of the key that produced
  it, a nonce standing for the random IV, and the plaintext; decryption
  under any other key fails, which is exactly the authenticated-encryption
  interface the source relies on. `MultiFernet` decryption tries the keys
  in order, and `MultiFernet.rotate` re-encrypts under the first (primary)
  key, as the library does.
- File systems are explicit maps `path → Option content`; "now" and the
  random nonce are explicit arguments; exceptions become `Option`/`Except`
  results or early returns, mirroring the `try`/`except` structure of the
  source.
-/

/-- Python strings, modelled as lists of characters. -/
abbrev PyStr := List Char

/-- Python `str.split(sep)` for a one-character separator: splits on every
occurrence, keeping empty fields, and returns `[""]` on the empty string. -/
def pySplit (sep : Char) : PyStr → List PyStr
  | [] => [[]]
  | c :: rest =>
    let r := pySplit sep rest
    if c = sep then [] :: r
    else
      match r with
      | [] => [[c]]
      | w :: ws => (c :: w) :: ws

/-- Python `sep.join(parts)`. -/
def pyJoin (sep : PyStr) : List PyStr → PyStr
  | [] => []
  | [w] => w
  | w :: ws => w ++ sep ++ pyJoin sep ws

/-- Python `str.isdigit()` restricted to ASCII: nonempty and all decimal
digits (the source only ever feeds it ASCII license-key segments). -/
def pyIsDigit (s : PyStr) : Bool :=
  !s.isEmpty && s.all Char.isDigit

/-- Python `int(s)` on a string of decimal digits. -/
def pyToNat (s : PyStr) : Nat :=
  s.foldl (fun a c => a * 10 + (c.toNat - '0'.toNat)) 0

/-- Python `str.lower()`. -/
def pyLower (s : PyStr) : PyStr :=
  s.map Char.toLower

/-- Python `str.strip()`: drop whitespace from both ends. -/
def pyStrip (s : PyStr) : PyStr :=
  ((s.dropWhile Char.isWhitespace).reverse.dropWhile Char.isWhitespace).reverse

/-- A Python `datetime` value (microseconds are never used by the source). -/
structure PyDateTime where
  year : Nat
  month : Nat
  day : Nat
  hour : Nat
  minute : Nat
  second : Nat
deriving DecidableEq, Repr

/-- Strict comparison `a < b` on `datetime` values: lexicographic on the
field tuple, as in CPython. -/
def dtLt (a b : PyDateTime) : Bool :=
  if a.year = b.year then
    if a.month = b.month then
      if a.day = b.day then
        if a.hour = b.hour then
          if a.minute = b.minute then decide (a.second < b.second)
          else decide (a.minute < b.minute)
        else decide (a.hour < b.hour)
      else decide (a.day < b.day)
    else decide (a.month < b.month)
  else decide (a.year < b.year)

/-- The constructor call `datetime(year, 12, 31, 23, 59, 59)` from
`license_check.py`: month/day/time are fixed and valid, so it raises
`ValueError` exactly when `year` is outside `[MINYEAR, MAXYEAR] = [1, 9999]`. -/
def pyDatetime (year : Nat) : Option PyDateTime :=
  if 1 ≤ year ∧ year ≤ 9999 then
    some { year := year, month := 12, day := 31, hour := 23, minute := 59, second := 59 }
  else none

/-- The `LicenseInfo` dataclass of `license_check.py`, with its field
defaults (`features=None` becomes `[]` in `__post_init__`). -/
structure LicenseInfo where
  is_valid : Bool := false
  license_type : PyStr := "unknown".toList
  model : PyStr := "unknown".toList
  expires : Option PyDateTime := none
  features : List PyStr := []
  max_requests : Int := 0
  hardware_locked : Bool := false
  error : Option PyStr := none
deriving DecidableEq, Repr

/-- The mutable state of a `LicenseChecker` instance: the stored
`_license_info` and the `_request_count` usage counter. -/
structure LicenseChecker where
  license_info : Option LicenseInfo := none
  request_count : Nat := 0
deriving DecidableEq, Repr

/-- A fresh `LicenseChecker()` instance. -/
def checker0 : LicenseChecker := {}

/-- `LicenseChecker._get_features`: `["api"]` plus tier extras, falling
back to the base feature list for unknown tiers. -/
def get_features (license_type : PyStr) : List PyStr :=
  if license_type = "trial".toList then ["api".toList]
  else if license_type = "standard".toList then
    ["api".toList, "voice".toList, "batch".toList]
  else if license_type = "enterprise".toList then
    ["api".toList, "voice".toList, "batch".toList, "unlimited".toList]
  else ["api".toList]

/-- `LicenseChecker._get_request_limit`: the tier→quota table, with the
dict lookup default of `100`. -/
def get_request_limit (license_type : PyStr) : Int :=
  if license_type = "trial".toList then 1000
  else if license_type = "standard".toList then 100000
  else if license_type = "enterprise".toList then -1
  else 100

/-- The `model` derivation of `check_license_key`:
`"-".join(parts[:3]) if len(parts) >= 3 else parts[0]`. -/
def license_model (key : PyStr) : PyStr :=
  let parts := pySplit '-' key
  if 3 ≤ parts.length then pyJoin ['-'] (parts.take 3) else parts.getD 0 []

/-- The `license_type` derivation of `check_license_key`:
`parts[3].lower() if len(parts) > 3 else "trial"`. -/
def license_type_of (key : PyStr) : PyStr :=
  let parts := pySplit '-' key
  if 3 < parts.length then pyLower (parts.getD 3 []) else "trial".toList

/-- The `year` derivation of `check_license_key`:
`int(parts[-1]) if parts[-1].isdigit() else 2025`. -/
def license_year (key : PyStr) : Nat :=
  let parts := pySplit '-' key
  let lastPart := parts.getLast?.getD []
  if pyIsDigit lastPart then pyToNat lastPart else 2025

/-- `LicenseChecker.check_license_key(key)` evaluated at time `now`,
returning the new checker state and the `LicenseInfo`. Mirrors the source:
fewer than 3 dash-separated segments is malformed; an out-of-range year
makes the `datetime` constructor raise, caught by the `except` clause; a
past expiry returns the expired info; only the fully valid path stores the
info into `self._license_info`. -/
def check_license_key (now : PyDateTime) (c : LicenseChecker) (key : PyStr) :
    LicenseChecker × LicenseInfo :=
  let parts := pySplit '-' key
  if parts.length < 3 then
    (c, { is_valid := false, error := some "Invalid license key format".toList })
  else
    match pyDatetime (license_year key) with
    | none =>
      (c, { is_valid := false, error := some "License validation error".toList })
    | some expires =>
      if dtLt expires now then
        (c, { is_valid := false, license_type := license_type_of key,
              model := license_model key, expires := some expires,
              error := some "License has expired".toList })
      else
        let info : LicenseInfo :=
          { is_valid := true, license_type := license_type_of key,
            model := license_model key, expires := some expires,
            features := get_features (license_type_of key),
            max_requests := get_request_limit (license_type_of key) }
        ({ c with license_info := some info }, info)

/-- `LicenseChecker.check_license_file`: the file content is `none` when
the path is unset or the file is absent; otherwise the stripped first line
is delegated to `check_license_key`. The `len(lines) < 1` branch is kept
exactly as in the source. -/
def check_license_file (now : PyDateTime) (c : LicenseChecker)
    (file : Option PyStr) : LicenseChecker × LicenseInfo :=
  match file with
  | none => (c, { is_valid := false, error := some "License file not found".toList })
  | some raw =>
    let content := pyStrip raw
    let lines := pySplit '\n' content
    if lines.length < 1 then
      (c, { is_valid := false, error := some "Empty license file".toList })
    else
      check_license_key now c (pyStrip (lines.getD 0 []))

/-- `LicenseChecker.has_feature(feature)`. -/
def has_feature (c : LicenseChecker) (feature : PyStr) : Bool :=
  match c.license_info with
  | none => false
  | some info => info.features.contains feature

/-- The truthiness test `self._license_info.expires and datetime.now() >
self._license_info.expires` from `can_make_request`. -/
def license_expired (now : PyDateTime) (info : LicenseInfo) : Bool :=
  match info.expires with
  | some e => dtLt e now
  | none => false

/-- `LicenseChecker.can_make_request()` evaluated at time `now`. -/
def can_make_request (now : PyDateTime) (c : LicenseChecker) : Bool × PyStr :=
  match c.license_info with
  | none => (false, "No valid license".toList)
  | some info =>
    if info.is_valid = false then (false, "No valid license".toList)
    else if license_expired now info then (false, "License expired".toList)
    else if decide (0 < info.max_requests) &&
            decide (info.max_requests ≤ (c.request_count : Int)) then
      (false, "Request limit exceeded".toList)
    else (true, "OK".toList)

/-- `LicenseChecker.record_request()`. -/
def record_request (c : LicenseChecker) : LicenseChecker :=
  { c with request_count := c.request_count + 1 }

/-- A symbolic Fernet token: the identity of the key that produced it, a
nonce standing for the random IV, and the plaintext. Authenticated
encryption means decryption under any other key fails rather than
returning garbage. -/
structure FernetToken where
  key : Nat
  nonce : Nat
  payload : List Nat
deriving DecidableEq, Repr

/-- `Fernet(key).encrypt(data)` with an explicit nonce for the random IV. -/
def fernetEncrypt (key nonce : Nat) (data : List Nat) : FernetToken :=
  { key := key, nonce := nonce, payload := data }

/-- `Fernet(key).decrypt(token)`: succeeds exactly on tokens produced
under the same key, otherwise raises `InvalidToken` (`none`). -/
def fernetDecrypt (key : Nat) (t : FernetToken) : Option (List Nat) :=
  if t.key = key then some t.payload else none

/-- `MultiFernet([...]).decrypt`: try each key in order, first success
wins; `InvalidToken` (`none`) when no key fits. -/
def multiFernetDecrypt (keys : List Nat) (t : FernetToken) : Option (List Nat) :=
  keys.findSome? (fun k => fernetDecrypt k t)

/-- `MultiFernet([...]).rotate(token)`: decrypt under any key of the set,
then re-encrypt under the first (primary) key with a fresh nonce. -/
def multiFernetRotate (keys : List Nat) (nonce : Nat) (t : FernetToken) :
    Option FernetToken :=
  match multiFernetDecrypt keys t with
  | none => none
  | some d =>
    match keys with
    | [] => none
    | k :: _ => some (fernetEncrypt k nonce d)

/-- Errors surfaced by `FernetManager`: the `ValueError`s it raises itself
and the library's `InvalidToken`. -/
inductive FernetError where
  | valueError (msg : PyStr)
  | invalidToken
deriving DecidableEq, Repr

/-- The state of a `FernetManager` instance: `_fernet` and `_key` hold the
identity of the loaded key, `_multi_fernet` the ordered rotation set. -/
structure FernetManager where
  fernet : Option Nat := none
  multi_fernet : Option (List Nat) := none
  key : Option Nat := none
deriving DecidableEq, Repr

namespace FernetManager

/-- `FernetManager.__init__`. -/
def init : FernetManager := {}

/-- `FernetManager.load_key(key)`. -/
def load_key (m : FernetManager) (k : Nat) : FernetManager :=
  { m with key := some k, fernet := some k }

/-- `FernetManager.encrypt(data)`. -/
def encrypt (m : FernetManager) (nonce : Nat) (data : List Nat) :
    Except FernetError FernetToken :=
  match m.fernet with
  | none => .error (.valueError "No key loaded".toList)
  | some k => .ok (fernetEncrypt k nonce data)

/-- `FernetManager.decrypt(encrypted_data)`. -/
def decrypt (m : FernetManager) (t : FernetToken) :
    Except FernetError (List Nat) :=
  match m.fernet with
  | none => .error (.valueError "No key loaded".toList)
  | some k =>
    match fernetDecrypt k t with
    | some d => .ok d
    | none => .error .invalidToken

/-- `FernetManager.setup_key_rotation(new_key, old_keys)`: the rotation
set is `MultiFernet([Fernet(new_key)] + [Fernet(k) for k in old_keys])`;
`_key` and `_fernet` move to the new key. -/
def setup_key_rotation (m : FernetManager) (new_key : Nat)
    (old_keys : List Nat) : FernetManager :=
  { m with multi_fernet := some (new_key :: old_keys),
           key := some new_key, fernet := some new_key }

/-- `FernetManager.rotate_encrypt(encrypted_data)` with an explicit fresh
nonce for the re-encryption. -/
def rotate_encrypt (m : FernetManager) (nonce : Nat) (t : FernetToken) :
    Except FernetError FernetToken :=
  match m.multi_fernet with
  | none => .error (.valueError "Key rotation not configured".toList)
  | some keys =>
    match multiFernetRotate keys nonce t with
    | some t2 => .ok t2
    | none => .error .invalidToken

/-- `FernetManager.clear()`: drop all key material. -/
def clear (m : FernetManager) : FernetManager :=
  { m with fernet := none, multi_fernet := none, key := none }

end FernetManager

/-- The parsed `_license_data` dict built by `QuantumLock._parse_license`. -/
structure LicenseData where
  model : PyStr
  license_type : PyStr
  year : PyStr
  raw : PyStr
deriving DecidableEq, Repr

/-- `QuantumLock._parse_license(license_key)`: index into the dash-split
segments with `"unknown"` defaults; never raises. -/
def parse_license (license_key : PyStr) : LicenseData :=
  let parts := pySplit '-' license_key
  { model := if 0 < parts.length then parts.getD 0 [] else "unknown".toList,
    license_type := if 1 < parts.length then parts.getD 1 [] else "unknown".toList,
    year := if 2 < parts.length then parts.getD 2 [] else "unknown".toList,
    raw := license_key }

/-- The mutable state of a `QuantumLock` instance. -/
structure QuantumLock where
  fernet : Option Nat := none
  is_verified : Bool := false
  license_data : Option LicenseData := none
deriving DecidableEq, Repr

/-- The 16-byte magic prefix `b"QUANTUM_LOCK_V1:"` of a lock artifact. -/
def lockMagic : List Nat :=
  "QUANTUM_LOCK_V1:".toList.map Char.toNat

/-- `QuantumLock.verify_license(license_key)`. `keyLoad` models the
`Fernet(stored_key)` constructor of the external library (`none` when the
stored bytes are not a valid Fernet key, which the source catches);
`lockData` is the lock file's content, `none` when reading raises. A
missing magic prefix returns `False` leaving the state untouched; an
exception resets `_is_verified`/`_fernet`; on success the key is loaded,
the instance is marked verified and the license string is parsed. -/
def QuantumLock.verify_license (keyLoad : List Nat → Option Nat)
    (lockData : Option (List Nat)) (q : QuantumLock) (license_key : PyStr) :
    QuantumLock × Bool :=
  match lockData with
  | none => ({ q with is_verified := false, fernet := none }, false)
  | some data =>
    if lockMagic.isPrefixOf data = false then (q, false)
    else
      match keyLoad (data.drop lockMagic.length) with
      | none => ({ q with is_verified := false, fernet := none }, false)
      | some kid =>
        ({ q with fernet := some kid, is_verified := true,
                  license_data := some (parse_license license_key) }, true)

/-- The `TamperEvent` dataclass of `self_destruct.py`. -/
structure TamperEvent where
  timestamp : Nat
  event_type : PyStr
  details : PyStr
  severity : PyStr
  file_path : Option PyStr := none
deriving DecidableEq, Repr

/-- The mutable state of a `SelfDestructSystem` instance. `exited` records
that `trigger()` reached `sys.exit(1)`. -/
structure SelfDestructSystem where
  protected_paths : List PyStr := []
  integrity_hashes : List (PyStr × PyStr) := []
  tamper_events : List TamperEvent := []
  armed : Bool := false
  triggered : Bool := false
  exited : Bool := false
deriving DecidableEq, Repr

/-- `SelfDestructSystem.trigger()`: idempotent; on the first call it marks
the system triggered, clears the in-memory integrity hashes
(`_clear_memory`) and exits the process. -/
def trigger (s : SelfDestructSystem) : SelfDestructSystem :=
  if s.triggered then s
  else { s with triggered := true, integrity_hashes := [], exited := true }

/-- `SelfDestructSystem._record_tamper(...)`: append the event and
auto-trigger on `fatal` severity. Registered callbacks receive the event
but cannot alter the system state (their exceptions are swallowed), so
they are not modelled. -/
def record_tamper (time : Nat) (event_type details severity : PyStr)
    (file_path : Option PyStr) (s : SelfDestructSystem) : SelfDestructSystem :=
  let e : TamperEvent :=
    { timestamp := time, event_type := event_type, details := details,
      severity := severity, file_path := file_path }
  let s2 := { s with tamper_events := s.tamper_events ++ [e] }
  if severity = "fatal".toList then trigger s2 else s2

/-- Python dict assignment `d[k] = v` on an insertion-ordered association
list. -/
def dictInsert (d : List (PyStr × PyStr)) (k v : PyStr) : List (PyStr × PyStr) :=
  if (d.lookup k).isSome then d.map (fun kv => if kv.1 = k then (k, v) else kv)
  else d ++ [(k, v)]

/-- `SelfDestructSystem.arm()`: hash every protected path that exists into
`_integrity_hashes` (paths that do not exist are skipped) and set
`_armed`. `fs` is the file system, `hashFn` the SHA-256 digest of a
file's bytes. -/
def arm (fs : PyStr → Option (List Nat)) (hashFn : List Nat → PyStr)
    (s : SelfDestructSystem) : SelfDestructSystem :=
  let hashes := s.protected_paths.foldl
    (fun d p =>
      match fs p with
      | none => d
      | some content => dictInsert d p (hashFn content))
    s.integrity_hashes
  { s with integrity_hashes := hashes, armed := true }

/-- The loop body of `SelfDestructSystem.check_integrity`: walk the
baselined `(path, expected_hash)` entries in insertion order; a missing
file records a `critical` `"file_missing"` event and returns `False`, a
digest mismatch records a `critical` `"file_modified"` event and returns
`False`; otherwise continue. -/
def check_integrity_go (fs : PyStr → Option (List Nat))
    (hashFn : List Nat → PyStr) (time : Nat) (s : SelfDestructSystem) :
    List (PyStr × PyStr) → SelfDestructSystem × Bool
  | [] => (s, true)
  | (path, expected) :: rest =>
    match fs path with
    | none =>
      (record_tamper time "file_missing".toList
        ("Protected file missing: ".toList ++ path) "critical".toList
        (some path) s, false)
    | some content =>
      if hashFn content ≠ expected then
        (record_tamper time "file_modified".toList
          ("Protected file modified: ".toList ++ path) "critical".toList
          (some path) s, false)
      else check_integrity_go fs hashFn time s rest

/-- `SelfDestructSystem.check_integrity()`: `True` unconditionally while
disarmed, otherwise the baseline walk above. -/
def check_integrity (fs : PyStr → Option (List Nat))
    (hashFn : List Nat → PyStr) (time : Nat) (s : SelfDestructSystem) :
    SelfDestructSystem × Bool :=
  if s.armed = false then (s, true)
  else check_integrity_go fs hashFn time s s.integrity_hashes

/-- The first baselined entry that fails the integrity walk, paired with
whether it failed because the file is missing (`true`) or because its
digest changed (`false`). -/
def firstIntegrityFailure (fs : PyStr → Option (List Nat))
    (hashFn : List Nat → PyStr) : List (PyStr × PyStr) → Option (PyStr × Bool)
  | [] => none
  | (path, expected) :: rest =>
    match fs path with
    | none => some (path, true)
    | some content =>
      if hashFn content ≠ expected then some (path, false)
      else firstIntegrityFailure fs hashFn rest

/-- A fixed evaluation time early in 2024, used by concrete instances. -/
def now2024 : PyDateTime :=
  { year := 2024, month := 1, day := 1, hour := 0, minute := 0, second := 0 }

/-- The last second of 2025: `2025-12-31T23:59:59`. -/
def endOf2025 : PyDateTime :=
  { year := 2025, month := 12, day := 31, hour := 23, minute := 59, second := 59 }

/-- The first second of 2026. -/
def startOf2026 : PyDateTime :=
  { year := 2026, month := 1, day := 1, hour := 0, minute := 0, second := 0 }

/-- A concrete valid trial license with a quota of 3 requests. -/
def infoTrial3 : LicenseInfo :=
  { is_valid := true, license_type := "trial".toList, model := "M".toList,
    expires := some { year := 2030, month := 12, day := 31, hour := 23,
                      minute := 59, second := 59 },
    features := ["api".toList], max_requests := 3 }

/-- A checker holding `infoTrial3` with a zero usage counter. -/
def checkerTrial3 : LicenseChecker :=
  { license_info := some infoTrial3, request_count := 0 }

/-- A concrete valid enterprise license with unlimited quota. -/
def infoUnlimited : LicenseInfo :=
  { is_valid := true, license_type := "enterprise".toList, model := "M".toList,
    expires := some { year := 2030, month := 12, day := 31, hour := 23,
                      minute := 59, second := 59 },
    features := ["api".toList, "voice".toList, "batch".toList, "unlimited".toList],
    max_requests := -1 }

/-- A checker holding `infoUnlimited` with a zero usage counter. -/
def checkerUnlimited : LicenseChecker :=
  { license_info := some infoUnlimited, request_count := 0 }

/-- A concrete file system where `model.bin` exists with tampered
content `[9, 9]`. -/
def fsTam : PyStr → Option (List Nat) :=
  fun p => if p = "model.bin".toList then some [9, 9] else none

/-- A concrete digest function: baseline content `[1, 2, 3]` hashes to
`"h1"`, everything else to `"hx"`. -/
def hashDemo : List Nat → PyStr :=
  fun c => if c = [1, 2, 3] then "h1".toList else "hx".toList

/-- An armed monitor whose baseline records `model.bin` with digest `"h1"`. -/
def sArmed : SelfDestructSystem :=
  { protected_paths := ["model.bin".toList],
    integrity_hashes := [("model.bin".toList, "h1".toList)],
    armed := true }

/-- C9: for every byte buffer `b`, `decrypt(encrypt(b)) == b` when both
calls run on the same `FernetManager` state (same active key). -/
theorem encrypt_decrypt_roundtrip (m : FernetManager) (nonce : Nat)
    (b : List Nat) (t : FernetToken)
    (h : FernetManager.encrypt m nonce b = .ok t) :
    FernetManager.decrypt m t = .ok b := by
  cases hm : m.fernet with
  | none => simp [FernetManager.encrypt, hm] at h
  | some k =>
    simp only [FernetManager.encrypt, hm] at h
    cases h
    simp [FernetManager.decrypt, hm, fernetDecrypt, fernetEncrypt]

/-- C9 witness: a concrete round trip under key 7. -/
theorem encrypt_decrypt_roundtrip_witness :
    FernetManager.decrypt (FernetManager.load_key FernetManager.init 7)
      (fernetEncrypt 7 0 [1, 2, 3]) = .ok [1, 2, 3] :=
  encrypt_decrypt_roundtrip (FernetManager.load_key FernetManager.init 7)
    0 [1, 2, 3] (fernetEncrypt 7 0 [1, 2, 3]) rfl

/-- C7: after `clear()` the manager state holds no key material, every
crypto operation (`encrypt`, `decrypt`, `rotate_encrypt`) fails with the
typed not-initialized `ValueError` of the source, and an explicit
`load_key` re-initialization makes `encrypt`/`decrypt` work again. -/
theorem clear_requires_reinit (m : FernetManager) (nonce : Nat)
    (d : List Nat) (t : FernetToken) :
    (FernetManager.clear m).fernet = none ∧
    (FernetManager.clear m).multi_fernet = none ∧
    (FernetManager.clear m).key = none ∧
    FernetManager.encrypt (FernetManager.clear m) nonce d =
      .error (.valueError "No key loaded".toList) ∧
    FernetManager.decrypt (FernetManager.clear m) t =
      .error (.valueError "No key loaded".toList) ∧
    FernetManager.rotate_encrypt (FernetManager.clear m) nonce t =
      .error (.valueError "Key rotation not configured".toList) ∧
    (∀ k : Nat,
      FernetManager.encrypt (FernetManager.load_key (FernetManager.clear m) k)
        nonce d = .ok (fernetEncrypt k nonce d) ∧
      FernetManager.decrypt (FernetManager.load_key (FernetManager.clear m) k)
        (fernetEncrypt k nonce d) = .ok d) := by
  refine ⟨rfl, rfl, rfl, rfl, rfl, rfl, fun k => ⟨rfl, ?_⟩⟩
  simp [FernetManager.decrypt, FernetManager.load_key, fernetDecrypt,
    fernetEncrypt]

/-- C7 witness: the cleared manager at concrete arguments. -/
theorem clear_requires_reinit_witness :
    FernetManager.encrypt (FernetManager.clear (FernetManager.load_key FernetManager.init 4))
      0 [8] = .error (.valueError "No key loaded".toList) ∧
    FernetManager.decrypt (FernetManager.load_key (FernetManager.clear (FernetManager.load_key FernetManager.init 4)) 9)
      (fernetEncrypt 9 0 [8]) = .ok [8] := by
  have h := clear_requires_reinit (FernetManager.load_key FernetManager.init 4)
    0 [8] (fernetEncrypt 9 0 [8])
  exact ⟨h.2.2.2.1, (h.2.2.2.2.2.2 9).2⟩

/-- C1: after `setup_key_rotation(new_key, [old_key])` the manager's
rotation set decrypts ciphertext produced under `old_key` back to `b`, and
`rotate_encrypt` turns that ciphertext into ciphertext that decrypts under
`new_key` (to `b`) and under no other key. -/
theorem fernet_rotation_backcompat (new_key old_key nonce nonce2 : Nat)
    (b : List Nat) (hk : old_key ≠ new_key) :
    (FernetManager.setup_key_rotation FernetManager.init new_key [old_key]).multi_fernet =
      some [new_key, old_key] ∧
    multiFernetDecrypt [new_key, old_key] (fernetEncrypt old_key nonce b) = some b ∧
    FernetManager.rotate_encrypt
      (FernetManager.setup_key_rotation FernetManager.init new_key [old_key])
      nonce2 (fernetEncrypt old_key nonce b) = .ok (fernetEncrypt new_key nonce2 b) ∧
    fernetDecrypt new_key (fernetEncrypt new_key nonce2 b) = some b ∧
    (∀ k : Nat, k ≠ new_key →
      fernetDecrypt k (fernetEncrypt new_key nonce2 b) = none) := by
  have hd : multiFernetDecrypt [new_key, old_key] (fernetEncrypt old_key nonce b) =
      some b := by
    simp [multiFernetDecrypt, List.findSome?, fernetDecrypt, fernetEncrypt, hk]
  refine ⟨rfl, hd, ?_, ?_, ?_⟩
  · simp [FernetManager.rotate_encrypt, FernetManager.setup_key_rotation,
      FernetManager.init, multiFernetRotate, hd]
  · simp [fernetDecrypt, fernetEncrypt]
  · intro k hkn
    simp [fernetDecrypt, fernetEncrypt]
    intro he
    exact absurd he.symm hkn

/-- C1 witness: rotation from old key 1 to new key 0 on payload `[42]`. -/
theorem fernet_rotation_backcompat_witness :
    multiFernetDecrypt [0, 1] (fernetEncrypt 1 5 [42]) = some [42] ∧
    FernetManager.rotate_encrypt
      (FernetManager.setup_key_rotation FernetManager.init 0 [1]) 6
      (fernetEncrypt 1 5 [42]) = .ok (fernetEncrypt 0 6 [42]) ∧
    fernetDecrypt 1 (fernetEncrypt 0 6 [42]) = none := by
  have h := fernet_rotation_backcompat 0 1 5 6 [42] (by decide)
  exact ⟨h.2.1, h.2.2.1, h.2.2.2.2 1 (by decide)⟩

/-- C2: on a fixed lock file, `QuantumLock.verify_license` returns the
same boolean for every license-key string, and that boolean is `true`
exactly when the file carries the magic prefix and its embedded key bytes
load as a Fernet key — the license string itself is never validated. -/
theorem verify_license_ignores_license_string
    (keyLoad : List Nat → Option Nat) (lockData : List Nat)
    (q : QuantumLock) (k1 k2 : PyStr) :
    (QuantumLock.verify_license keyLoad (some lockData) q k1).2 =
      (QuantumLock.verify_license keyLoad (some lockData) q k2).2 ∧
    ((QuantumLock.verify_license keyLoad (some lockData) q k1).2 = true ↔
      lockMagic.isPrefixOf lockData = true ∧
      (keyLoad (lockData.drop lockMagic.length)).isSome = true) := by
  unfold QuantumLock.verify_license
  by_cases hp : lockMagic.isPrefixOf lockData
  · cases hkl : keyLoad (lockData.drop lockMagic.length) <;> simp [hp, hkl]
  · simp [hp]

/-- C2 witness: a well-formed concrete lock accepts two unrelated license
strings, a junk lock rejects both. -/
theorem verify_license_ignores_license_string_witness :
    (QuantumLock.verify_license (fun bs => some bs.length)
      (some (lockMagic ++ [1, 2])) {} "GOOD-KEY".toList).2 = true ∧
    (QuantumLock.verify_license (fun bs => some bs.length)
      (some (lockMagic ++ [1, 2])) {} ("".toList)).2 = true ∧
    (QuantumLock.verify_license (fun bs => some bs.length)
      (some [0, 1]) {} "GOOD-KEY".toList).2 = false := by
  have h1 := verify_license_ignores_license_string (fun bs => some bs.length)
    (lockMagic ++ [1, 2]) {} "GOOD-KEY".toList ("".toList)
  have h2 := verify_license_ignores_license_string (fun bs => some bs.length)
    [0, 1] {} "GOOD-KEY".toList ("".toList)
  refine ⟨h1.2.mpr ⟨by decide, rfl⟩, ?_, ?_⟩
  · rw [← h1.1]
    exact h1.2.mpr ⟨by decide, rfl⟩
  · have : ¬(lockMagic.isPrefixOf [0, 1] = true ∧
        ((fun bs : List Nat => some bs.length) ([0, 1].drop lockMagic.length)).isSome = true) := by
      decide
    cases hv : (QuantumLock.verify_license (fun bs => some bs.length)
      (some [0, 1]) {} "GOOD-KEY".toList).2
    · rfl
    · exact absurd (h2.2.mp hv) this

/-- Iterating `record_request` adds `n` to the usage counter and touches
nothing else. -/
theorem record_request_iterate (c : LicenseChecker) (n : Nat) :
    record_request^[n] c = { c with request_count := c.request_count + n } := by
  induction n with
  | zero => rfl
  | succ k ih =>
    rw [Function.iterate_succ_apply', ih]
    simp [record_request, Nat.add_assoc]

/-- C5: with a stored valid, unexpired license of quota `n > 0` and a zero
usage counter, exactly `n` calls to `record_request()` make
`can_make_request()` return `(false, "Request limit exceeded")`; with
quota `-1` (enterprise) it returns `(true, "OK")` after any number of
calls. -/
theorem quota_enforcement (now : PyDateTime) (c : LicenseChecker)
    (info : LicenseInfo) (hinfo : c.license_info = some info)
    (hvalid : info.is_valid = true)
    (hexp : license_expired now info = false) :
    (∀ n : Nat, info.max_requests = (n : Int) → 0 < n → c.request_count = 0 →
      can_make_request now (record_request^[n] c) =
        (false, "Request limit exceeded".toList)) ∧
    (info.max_requests = -1 →
      ∀ k : Nat, can_make_request now (record_request^[k] c) =
        (true, "OK".toList)) := by
  constructor
  · intro n hmax hn h0
    rw [record_request_iterate]
    have hc1 : (0 : Int) < (n : Int) := by exact_mod_cast hn
    have hc2 : (n : Int) ≤ ((c.request_count + n : Nat) : Int) := by
      push_cast
      omega
    simp [can_make_request, hinfo, hvalid, hexp, hmax, hc1, hc2]
  · intro hmax k
    rw [record_request_iterate]
    simp [can_make_request, hinfo, hvalid, hexp, hmax]

/-- C5 witness: quota 3 exhausts after 3 recorded requests; the unlimited
license still answers OK after 5. -/
theorem quota_enforcement_witness :
    can_make_request now2024 (record_request^[3] checkerTrial3) =
      (false, "Request limit exceeded".toList) ∧
    can_make_request now2024 (record_request^[5] checkerUnlimited) =
      (true, "OK".toList) :=
  ⟨(quota_enforcement now2024 checkerTrial3 infoTrial3 rfl rfl (by decide)).1
      3 (by decide) (by decide) rfl,
   (quota_enforcement now2024 checkerUnlimited infoUnlimited rfl rfl (by decide)).2
      (by decide) 5⟩

/-- C10: `check_license_key` is atomic on failure — whenever the returned
`LicenseInfo` has `is_valid = false` the checker state is unchanged (so
`can_make_request` and `has_feature` still answer from the previously
stored license), and only a call returning `is_valid = true` replaces the
stored info. -/
theorem check_license_key_failure_atomic (now : PyDateTime)
    (c : LicenseChecker) (key : PyStr) :
    ((check_license_key now c key).2.is_valid = false →
      (check_license_key now c key).1 = c ∧
      can_make_request now (check_license_key now c key).1 =
        can_make_request now c ∧
      (∀ f, has_feature (check_license_key now c key).1 f = has_feature c f)) ∧
    ((check_license_key now c key).2.is_valid = true →
      (check_license_key now c key).1 =
        { c with license_info := some (check_license_key now c key).2 }) := by
  unfold check_license_key
  by_cases h1 : (pySplit '-' key).length < 3
  · simp [h1]
  · cases hdt : pyDatetime (license_year key) with
    | none => simp [h1, hdt]
    | some expires =>
      by_cases hexp : dtLt expires now = true
      · simp [h1, hdt, hexp]
      · simp [h1, hdt, hexp]

/-- C10 witness: a malformed key leaves a previously validated checker
untouched. -/
theorem check_license_key_failure_atomic_witness :
    (check_license_key now2024 checkerTrial3 "AB".toList).1 = checkerTrial3 ∧
    can_make_request now2024 (check_license_key now2024 checkerTrial3 "AB".toList).1 =
      can_make_request now2024 checkerTrial3 := by
  have h := (check_license_key_failure_atomic now2024 checkerTrial3
    "AB".toList).1 (by decide)
  exact ⟨h.1, h.2.1⟩

/-- C3 counterexample: on the claim's own key shape
`MODEL1-MODEL2-MODEL3-TYPE-YEAR-CUSTOMERHASH` with a non-numeric customer
hash, the code derives expiry year 2025 (the default), not the YEAR
segment 2030: the year comes from the last segment only, never from the
last numeric segment. -/
theorem check_license_key_last_segment_cex :
    (check_license_key now2024 checker0 "REGIS-7B-C-TRIAL-2030-X9ZQ2A".toList).2.expires =
      some { year := 2025, month := 12, day := 31, hour := 23, minute := 59,
             second := 59 } ∧
    (check_license_key now2024 checker0 "REGIS-7B-C-TRIAL-2030-X9ZQ2A".toList).2.expires ≠
      some { year := 2030, month := 12, day := 31, hour := 23, minute := 59,
             second := 59 } := by
  decide

/-- C3 as amended: for every key with at least 3 dash-separated segments
(and a derived year the `datetime` constructor accepts), `model` is the
first 3 segments joined with dashes, `type` is the lowercased 4th segment
defaulting to `trial`, and the expiry year is the numeric value of the
LAST segment, defaulting to 2025 whenever the last segment is non-numeric
— in particular a trailing non-numeric customer hash forces 2025. -/
theorem check_license_key_field_derivation (now : PyDateTime)
    (c : LicenseChecker) (key : PyStr)
    (hlen : 3 ≤ (pySplit '-' key).length)
    (hy1 : 1 ≤ license_year key) (hy2 : license_year key ≤ 9999) :
    (check_license_key now c key).2.model =
      pyJoin ['-'] ((pySplit '-' key).take 3) ∧
    (check_license_key now c key).2.license_type =
      (if 3 < (pySplit '-' key).length then pyLower ((pySplit '-' key).getD 3 [])
       else "trial".toList) ∧
    (check_license_key now c key).2.expires =
      some { year := license_year key, month := 12, day := 31, hour := 23,
             minute := 59, second := 59 } ∧
    (pyIsDigit ((pySplit '-' key).getLast?.getD []) = false →
      (check_license_key now c key).2.expires =
        some { year := 2025, month := 12, day := 31, hour := 23, minute := 59,
               second := 59 }) := by
  have hdt : pyDatetime (license_year key) =
      some { year := license_year key, month := 12, day := 31, hour := 23,
             minute := 59, second := 59 } := by
    unfold pyDatetime
    rw [if_pos ⟨hy1, hy2⟩]
  have hlt : ¬((pySplit '-' key).length < 3) := by omega
  have hyr : pyIsDigit ((pySplit '-' key).getLast?.getD []) = false →
      license_year key = 2025 := by
    intro h
    unfold license_year
    simp [h]
  unfold check_license_key
  rw [hdt]
  by_cases hexp : dtLt ⟨license_year key, 12, 31, 23, 59, 59⟩ now = true
  · simp only [hlt, if_false, hexp, if_true]
    refine ⟨?_, ?_, trivial, fun h => by rw [hyr h]⟩
    · simp [license_model, hlen]
    · simp [license_type_of]
  · simp only [hlt, if_false, hexp, Bool.false_eq_true]
    refine ⟨?_, ?_, trivial, fun h => by rw [hyr h]⟩
    · simp [license_model, hlen]
    · simp [license_type_of]

/-- C3 witness: the amended derivation evaluated on the counterexample
key — model `REGIS-7B-C`, type `trial`, expiry year 2025. -/
theorem check_license_key_field_derivation_witness :
    (check_license_key now2024 checker0 "REGIS-7B-C-TRIAL-2030-X9ZQ2A".toList).2.model =
      "REGIS-7B-C".toList ∧
    (check_license_key now2024 checker0 "REGIS-7B-C-TRIAL-2030-X9ZQ2A".toList).2.license_type =
      "trial".toList ∧
    (check_license_key now2024 checker0 "REGIS-7B-C-TRIAL-2030-X9ZQ2A".toList).2.expires =
      some { year := 2025, month := 12, day := 31, hour := 23, minute := 59,
             second := 59 } := by
  have h := check_license_key_field_derivation now2024 checker0
    "REGIS-7B-C-TRIAL-2030-X9ZQ2A".toList (by decide) (by decide) (by decide)
  exact ⟨h.1.trans (by decide), h.2.1.trans (by decide), h.2.2.2 (by decide)⟩

/-- C6: for a well-formed key whose derived expiry year the `datetime`
constructor accepts, the license is valid whenever "now" is not strictly
after `Y-12-31T23:59:59`, and invalid with error `License has expired`
whenever "now" is strictly after it; any time in year `Y+1` or later is
strictly after. -/
theorem license_expiry_boundary (now : PyDateTime) (c : LicenseChecker)
    (key : PyStr) (hlen : 3 ≤ (pySplit '-' key).length)
    (hy1 : 1 ≤ license_year key) (hy2 : license_year key ≤ 9999) :
    (dtLt { year := license_year key, month := 12, day := 31, hour := 23,
            minute := 59, second := 59 } now = false →
      (check_license_key now c key).2.is_valid = true) ∧
    (dtLt { year := license_year key, month := 12, day := 31, hour := 23,
            minute := 59, second := 59 } now = true →
      (check_license_key now c key).2.is_valid = false ∧
      (check_license_key now c key).2.error =
        some "License has expired".toList) ∧
    (license_year key < now.year →
      dtLt { year := license_year key, month := 12, day := 31, hour := 23,
             minute := 59, second := 59 } now = true) := by
  have hdt : pyDatetime (license_year key) =
      some { year := license_year key, month := 12, day := 31, hour := 23,
             minute := 59, second := 59 } := by
    unfold pyDatetime
    rw [if_pos ⟨hy1, hy2⟩]
  have hlt : ¬((pySplit '-' key).length < 3) := by omega
  refine ⟨?_, ?_, ?_⟩
  · intro hexp
    unfold check_license_key
    rw [hdt]
    simp [hlt, hexp]
  · intro hexp
    unfold check_license_key
    rw [hdt]
    simp [hlt, hexp]
  · intro hy
    have hne : license_year key ≠ now.year := Nat.ne_of_lt hy
    simp [dtLt, hne, hy]

/-- C6 witness: the spec's example key `REGIS-7B-C-LICENSE-TRIAL-2025` is
valid at `2025-12-31T23:59:59` and expired at `2026-01-01T00:00:00`. -/
theorem license_expiry_boundary_witness :
    (check_license_key endOf2025 checker0 "REGIS-7B-C-LICENSE-TRIAL-2025".toList).2.is_valid = true ∧
    (check_license_key startOf2026 checker0 "REGIS-7B-C-LICENSE-TRIAL-2025".toList).2.is_valid = false ∧
    (check_license_key startOf2026 checker0 "REGIS-7B-C-LICENSE-TRIAL-2025".toList).2.error =
      some "License has expired".toList := by
  have h1 := license_expiry_boundary endOf2025 checker0
    "REGIS-7B-C-LICENSE-TRIAL-2025".toList (by decide) (by decide) (by decide)
  have h2 := license_expiry_boundary startOf2026 checker0
    "REGIS-7B-C-LICENSE-TRIAL-2025".toList (by decide) (by decide) (by decide)
  exact ⟨h1.1 (by decide), (h2.2.1 (by decide)).1, (h2.2.1 (by decide)).2⟩

/-- C4: evaluating `check_license_file` on a blank existing file yields
the malformed-key error `Invalid license key format` (the `Empty license
file` branch is dead: `split` never returns an empty list), while a
missing file does yield `License file not found`. -/
theorem check_license_file_blank_eval :
    (check_license_file now2024 checker0 (some "".toList)).2.error =
      some "Invalid license key format".toList ∧
    (check_license_file now2024 checker0 (some "".toList)).2.error ≠
      some "Empty license file".toList ∧
    (check_license_file now2024 checker0 none).2.error =
      some "License file not found".toList := by
  decide

/-- Recording a `critical` tamper event appends it and does not trigger. -/
theorem record_tamper_critical (time : Nat) (event_type details : PyStr)
    (file_path : Option PyStr) (s : SelfDestructSystem) :
    record_tamper time event_type details "critical".toList file_path s =
      { s with tamper_events := s.tamper_events ++
          [{ timestamp := time, event_type := event_type, details := details,
             severity := "critical".toList, file_path := file_path }] } := by
  unfold record_tamper
  rw [if_neg (by decide)]

/-- When no baselined entry fails, the integrity walk returns the state
unchanged and `true`. -/
theorem check_integrity_go_of_none (fs : PyStr → Option (List Nat))
    (hashFn : List Nat → PyStr) (time : Nat) (s : SelfDestructSystem)
    (l : List (PyStr × PyStr))
    (h : firstIntegrityFailure fs hashFn l = none) :
    check_integrity_go fs hashFn time s l = (s, true) := by
  induction l with
  | nil => rfl
  | cons kv rest ih =>
    obtain ⟨path, expected⟩ := kv
    unfold firstIntegrityFailure at h
    unfold check_integrity_go
    cases hfs : fs path with
    | none => simp only [hfs] at h; cases h
    | some content =>
      simp only [hfs] at h ⊢
      by_cases hh : hashFn content ≠ expected
      · rw [if_pos hh] at h; cases h
      · rw [if_neg hh] at h
        rw [if_neg hh]
        exact ih h

/-- When some baselined entry fails, the integrity walk records exactly
one `critical` event for the first failing entry — `file_missing` when the
file is gone, `file_modified` when its digest changed — and returns
`false`. -/
theorem check_integrity_go_of_some (fs : PyStr → Option (List Nat))
    (hashFn : List Nat → PyStr) (time : Nat) (s : SelfDestructSystem)
    (l : List (PyStr × PyStr)) (p : PyStr) (missing : Bool)
    (h : firstIntegrityFailure fs hashFn l = some (p, missing)) :
    check_integrity_go fs hashFn time s l =
      ({ s with tamper_events := s.tamper_events ++
          [{ timestamp := time,
             event_type := if missing then "file_missing".toList
                           else "file_modified".toList,
             details := (if missing then "Protected file missing: ".toList
                         else "Protected file modified: ".toList) ++ p,
             severity := "critical".toList, file_path := some p }] }, false) := by
  induction l with
  | nil => cases h
  | cons kv rest ih =>
    obtain ⟨path, expected⟩ := kv
    unfold firstIntegrityFailure at h
    unfold check_integrity_go
    cases hfs : fs path with
    | none =>
      simp only [hfs] at h ⊢
      injection h with h2
      injection h2 with hp hm
      subst hp
      subst hm
      rw [record_tamper_critical]
      simp
    | some content =>
      simp only [hfs] at h ⊢
      by_cases hh : hashFn content ≠ expected
      · rw [if_pos hh] at h
        injection h with h2
        injection h2 with hp hm
        subst hp
        subst hm
        rw [if_pos hh, record_tamper_critical]
        simp
      · rw [if_neg hh] at h
        rw [if_neg hh]
        exact ih h

/-- The integrity walk finds no failure exactly when every baselined path
exists with its baseline digest. -/
theorem firstIntegrityFailure_none_iff (fs : PyStr → Option (List Nat))
    (hashFn : List Nat → PyStr) (l : List (PyStr × PyStr)) :
    firstIntegrityFailure fs hashFn l = none ↔
      ∀ pr ∈ l, ∃ c, fs pr.1 = some c ∧ hashFn c = pr.2 := by
  induction l with
  | nil => simp [firstIntegrityFailure]
  | cons kv rest ih =>
    obtain ⟨path, expected⟩ := kv
    unfold firstIntegrityFailure
    cases hfs : fs path with
    | none => simp [hfs]
    | some content =>
      by_cases hh : hashFn content = expected
      · simp [hfs, hh, ih]
      · simp [hfs, hh]

/-- C8: `check_integrity` returns `true` and is a no-op while disarmed;
while armed it returns `true` exactly when every baselined path exists
with its baseline digest, and on the first failing path it returns `false`
after appending one `critical` TamperEvent — of type `file_missing` for a
missing file, `file_modified` for a digest mismatch. -/
theorem check_integrity_spec (fs : PyStr → Option (List Nat))
    (hashFn : List Nat → PyStr) (time : Nat) (s : SelfDestructSystem) :
    (s.armed = false → check_integrity fs hashFn time s = (s, true)) ∧
    (s.armed = true →
      (((check_integrity fs hashFn time s).2 = true) ↔
        ∀ pr ∈ s.integrity_hashes, ∃ c, fs pr.1 = some c ∧ hashFn c = pr.2) ∧
      (∀ p : PyStr,
        firstIntegrityFailure fs hashFn s.integrity_hashes = some (p, true) →
        check_integrity fs hashFn time s =
          ({ s with tamper_events := s.tamper_events ++
              [{ timestamp := time, event_type := "file_missing".toList,
                 details := "Protected file missing: ".toList ++ p,
                 severity := "critical".toList, file_path := some p }] }, false)) ∧
      (∀ p : PyStr,
        firstIntegrityFailure fs hashFn s.integrity_hashes = some (p, false) →
        check_integrity fs hashFn time s =
          ({ s with tamper_events := s.tamper_events ++
              [{ timestamp := time, event_type := "file_modified".toList,
                 details := "Protected file modified: ".toList ++ p,
                 severity := "critical".toList, file_path := some p }] }, false))) := by
  constructor
  · intro h
    simp [check_integrity, h]
  · intro h
    have hc : check_integrity fs hashFn time s =
        check_integrity_go fs hashFn time s s.integrity_hashes := by
      simp [check_integrity, h]
    refine ⟨?_, ?_, ?_⟩
    · rw [hc, ← firstIntegrityFailure_none_iff fs hashFn]
      constructor
      · intro h2
        cases hf : firstIntegrityFailure fs hashFn s.integrity_hashes with
        | none => rfl
        | some pm =>
          obtain ⟨p, missing⟩ := pm
          rw [check_integrity_go_of_some fs hashFn time s _ p missing hf] at h2
          simp at h2
      · intro h2
        rw [check_integrity_go_of_none fs hashFn time s _ h2]
    · intro p hf
      rw [hc, check_integrity_go_of_some fs hashFn time s _ p true hf]
      simp
    · intro p hf
      rw [hc, check_integrity_go_of_some fs hashFn time s _ p false hf]
      simp

/-- C8 witness: the armed monitor over a tampered `model.bin` returns
`false` and appends the `critical` `file_modified` event. -/
theorem check_integrity_spec_witness :
    check_integrity fsTam hashDemo 5 sArmed =
      ({ sArmed with tamper_events := sArmed.tamper_events ++
          [{ timestamp := 5, event_type := "file_modified".toList,
             details := "Protected file modified: ".toList ++ "model.bin".toList,
             severity := "critical".toList,
             file_path := some "model.bin".toList }] }, false) :=
  ((check_integrity_spec fsTam hashDemo 5 sArmed).2 rfl).2.2
    "model.bin".toList (by decide)
